import Mathlib

/-!
A shallow embedding of `src/qbo_out/static/js/atlas-admin.js`, the admin
dashboard controller of the Atlas repository, together with theorems checking
the natural-language specification against it.

The JavaScript is event-driven DOM/fetch glue.  We model it as pure functions:

* `JSValue` models JavaScript values (undefined, null, booleans, numbers,
  strings, arrays, plain objects); numbers are modelled as `Int` since the
  code only moves them between JSON and templates.
* `Response` models the outcome of a `fetch`: the `ok` flag, the numeric
  status, and the JSON body (`none` models a body that fails to parse).
* Each async function of the source becomes a Lean function from its inputs
  (DOM field values, the responses the network returns for the requests it
  issues) to a trace of observable actions (`Action`) paired with an
  `Except JSError` outcome; `Except.error e` models an exception escaping
  the function unhandled.
-/

namespace Atlas

inductive JSValue where
  | undefV
  | nullv
  | bool (b : Bool)
  | num (n : Int)
  | str (s : String)
  | arr (elems : List JSValue)
  | obj (fields : List (String × JSValue))

/-- JavaScript truthiness (`Boolean(v)`), as used by `||` and `if`. -/
def jsTruthy : JSValue → Bool
  | .undefV => false
  | .nullv => false
  | .bool b => b
  | .num n => n != 0
  | .str s => s != ""
  | .arr _ => true
  | .obj _ => true

/-- JavaScript `a || b`: `a` when truthy, else `b`. -/
def jsOr (a b : JSValue) : JSValue :=
  if jsTruthy a then a else b

mutual
/-- JavaScript string conversion `String(v)` / template interpolation. -/
def jsToString : JSValue → String
  | .undefV => "undefined"
  | .nullv => "null"
  | .bool b => if b then "true" else "false"
  | .num n => toString n
  | .str s => s
  | .arr xs => String.intercalate "," (jsToStringElems xs)
  | .obj _ => "[object Object]"

/-- `Array.prototype.join(",")`: null/undefined elements become empty. -/
def jsToStringElems : List JSValue → List String
  | [] => []
  | .undefV :: xs => "" :: jsToStringElems xs
  | .nullv :: xs => "" :: jsToStringElems xs
  | x :: xs => jsToString x :: jsToStringElems xs
end

/-- Property lookup on a plain object literal; absent keys give `undefined`
(the objects built by this code have no duplicate keys). -/
def lookupField : List (String × JSValue) → String → JSValue
  | [], _ => .undefV
  | (k, v) :: rest, key => if k = key then v else lookupField rest key

/-- JavaScript property access `v.key` as the code uses it (on parsed JSON
objects); non-objects yield `undefined`. -/
def jsGet (v : JSValue) (key : String) : JSValue :=
  match v with
  | .obj fs => lookupField fs key
  | _ => .undefV

/-- `v.items`-style coercion: `.map` is only ever applied after `|| []`,
so a non-array simply contributes no rows. -/
def jsElems : JSValue → List JSValue
  | .arr xs => xs
  | _ => []

/-- JSON string escaping as in `JSON.stringify`. -/
def jsonEscapeChar (c : Char) : String :=
  if c = '"' then "\\\""
  else if c = '\\' then "\\\\"
  else if c = '\n' then "\\n"
  else if c = '\t' then "\\t"
  else if c = '\r' then "\\r"
  else if c.toNat < 32 then
    "\\u00" ++ (Nat.toDigits 16 c.toNat).asString
  else String.singleton c

def jsonEscape (s : String) : String :=
  String.join (s.toList.map jsonEscapeChar)

mutual
/-- `JSON.stringify(v)` (no indentation; `undefined` has no representation:
at top level the call returns undefined, inside objects the key is skipped,
inside arrays it becomes `null`). -/
def jsonStringify : JSValue → Option String
  | .undefV => none
  | .nullv => some "null"
  | .bool b => some (if b then "true" else "false")
  | .num n => some (toString n)
  | .str s => some ("\"" ++ jsonEscape s ++ "\"")
  | .arr xs => some ("[" ++ String.intercalate "," (jsonStringifyElems xs) ++ "]")
  | .obj fs => some ("\x7b" ++ String.intercalate "," (jsonStringifyFields fs) ++ "\x7d")

def jsonStringifyElems : List JSValue → List String
  | [] => []
  | x :: xs => ((jsonStringify x).getD "null") :: jsonStringifyElems xs

def jsonStringifyFields : List (String × JSValue) → List String
  | [] => []
  | (k, v) :: fs =>
    match jsonStringify v with
    | none => jsonStringifyFields fs
    | some vs => ("\"" ++ jsonEscape k ++ "\":" ++ vs) :: jsonStringifyFields fs
end

/-- The outcome of one `fetch`: HTTP `ok` flag, numeric status, and the JSON
body; `body = none` models a body on which `r.json()` rejects. -/
structure Response where
  ok : Bool
  status : Nat
  body : Option JSValue

/-- `await r.json().catch(()=> ({}))` — a parse failure is swallowed and
yields the empty object. -/
def parseBodyCaught (r : Response) : JSValue :=
  (r.body).getD (.obj [])

/-- Exceptions the modelled code can raise: `Error` objects carrying a
message, and the SyntaxError a failing `r.json()` (without catch) rejects
with. -/
inductive JSError where
  | jsError (msg : String)
  | parseError
  deriving Repr, DecidableEq

/-- `String(e)` on a caught exception. -/
def errToString : JSError → String
  | .jsError m => "Error: " ++ m
  | .parseError => "SyntaxError: Unexpected end of JSON input"

/-- Observable actions of the admin page, in program order: network requests
(with the serialized body for JSON POSTs), DOM writes, dialogs, and
navigation. -/
inductive Action where
  | request (method : String) (path : String) (body : Option String)
  | setHTML (elemId : String) (html : String)
  | setDisplay (elemId : String) (value : String)
  | alertBox (msg : String)
  | confirmBox (msg : String)
  | redirect (url : String)
  deriving Repr, DecidableEq

abbrev Trace := List Action

/-- The result of running one of the async functions: the actions it
performed, and either its value or the exception that escaped it. -/
abbrev OpResult (α : Type) := Trace × Except JSError α

/-- Sequencing with exception propagation: once a step throws, later steps
do not run and the exception escapes with the trace so far. -/
def opBind {α β : Type} (x : OpResult α) (f : α → OpResult β) : OpResult β :=
  match x with
  | (tr, .error e) => (tr, .error e)
  | (tr, .ok a) =>
    match f a with
    | (tr2, r) => (tr ++ tr2, r)

def emit (a : Action) : OpResult Unit := ([a], .ok ())

def emitAll (as : Trace) : OpResult Unit := (as, .ok ())

def opPure {α : Type} (a : α) : OpResult α := ([], .ok a)

def opThrow {α : Type} (e : JSError) : OpResult α := ([], .error e)

/-- `try { x } catch(e) { h(e) }`. -/
def opCatch {α : Type} (x : OpResult α) (h : JSError → OpResult α) : OpResult α :=
  match x with
  | (tr, .error e) =>
    match h e with
    | (tr2, r) => (tr ++ tr2, r)
  | ok => ok

/-- The error message the `api` helper throws for a non-2xx response:
`j.detail || "HTTP " + r.status` (stringified by the `Error` constructor). -/
def apiErrMsg (r : Response) : String :=
  jsToString (jsOr (jsGet (parseBodyCaught r) "detail")
    (.str ("HTTP " ++ toString r.status)))

/--
```
async function api(path, opts={}){
  const r = await fetch(path, opts);
  const j = await r.json().catch(()=> ({}));
  if(!r.ok) throw new Error(j.detail || `HTTP ${r.status}`);
  return j;
}
```
The method and body are those of `opts` at each call site; `r` is the
response the environment returns for this request.
-/
def api (method path : String) (reqBody : Option String) (r : Response) :
    OpResult JSValue :=
  opBind (emit (.request method path reqBody)) fun _ =>
    if r.ok then opPure (parseBodyCaught r)
    else opThrow (.jsError (apiErrMsg r))

example : apiErrMsg ⟨false, 500, none⟩ = "HTTP 500" := by decide
example : apiErrMsg ⟨false, 400, some (.obj [("detail", .str "bad input")])⟩
    = "bad input" := by decide
example : apiErrMsg ⟨false, 400, some (.obj [("detail", .str "")])⟩
    = "HTTP 400" := by decide

/-! `encodeURIComponent`, used when building the onboarding list URL. -/

def hexDigitChar (n : Nat) : Char :=
  Char.ofNat (if n < 10 then 48 + n else 55 + n)

/-- UTF-8 bytes of a character, as `Nat`s below 256. -/
def utf8BytesOfChar (c : Char) : List Nat :=
  let n := c.toNat
  if n < 0x80 then [n]
  else if n < 0x800 then
    [0xC0 ||| (n >>> 6), 0x80 ||| (n &&& 0x3F)]
  else if n < 0x10000 then
    [0xE0 ||| (n >>> 12), 0x80 ||| ((n >>> 6) &&& 0x3F), 0x80 ||| (n &&& 0x3F)]
  else
    [0xF0 ||| (n >>> 18), 0x80 ||| ((n >>> 12) &&& 0x3F),
     0x80 ||| ((n >>> 6) &&& 0x3F), 0x80 ||| (n &&& 0x3F)]

/-- Characters `encodeURIComponent` leaves unescaped. -/
def isUnreservedURI (c : Char) : Bool :=
  c.isAlpha || c.isDigit || c = '-' || c = '_' || c = '.' || c = '!' ||
    c = '~' || c = '*' || c = Char.ofNat 39 || c = '(' || c = ')'

def percentHex (n : Nat) : String :=
  "%" ++ String.mk [hexDigitChar (n / 16), hexDigitChar (n % 16)]

def encodeURIComponent (s : String) : String :=
  String.join (s.toList.map fun c =>
    if isUnreservedURI c then String.singleton c
    else String.join ((utf8BytesOfChar c).map percentHex))

example : encodeURIComponent "needs_more" = "needs_more" := by decide
example : encodeURIComponent "a b" = "a%20b" := by decide

/-! `JSON.stringify(v, null, 2)`, used in the onboarding detail dump. -/

def indentPad (d : Nat) : String := String.mk (List.replicate (2 * d) ' ')

mutual
/-- `JSON.stringify(v, null, 2)` at nesting depth `d`. -/
def stringifyIndent : Nat → JSValue → Option String
  | _, .undefV => none
  | _, .nullv => some "null"
  | _, .bool b => some (if b then "true" else "false")
  | _, .num n => some (toString n)
  | _, .str s => some ("\"" ++ jsonEscape s ++ "\"")
  | _, .arr [] => some "[]"
  | d, .arr (x :: xs) =>
    some ("[\n" ++
      String.intercalate ",\n"
        (stringifyIndentElems (d + 1) (x :: xs)) ++
      "\n" ++ indentPad d ++ "]")
  | d, .obj fs =>
    match stringifyIndentFields (d + 1) fs with
    | [] => some "\x7b\x7d"
    | es => some ("\x7b\n" ++ String.intercalate ",\n" es ++ "\n" ++ indentPad d ++ "\x7d")

def stringifyIndentElems : Nat → List JSValue → List String
  | _, [] => []
  | d, x :: xs =>
    (indentPad d ++ (stringifyIndent d x).getD "null") :: stringifyIndentElems d xs

def stringifyIndentFields : Nat → List (String × JSValue) → List String
  | _, [] => []
  | d, (k, v) :: fs =>
    match stringifyIndent d v with
    | none => stringifyIndentFields d fs
    | some vs =>
      (indentPad d ++ "\"" ++ jsonEscape k ++ "\": " ++ vs) :: stringifyIndentFields d fs
end

/-- Strict equality `v === x` between a JS value and a string literal. -/
def jsStrictEqStr (v : JSValue) (x : String) : Bool :=
  match v with
  | .str s => s = x
  | _ => false

/-!
Template literals of the source, transcribed.  `new Date(v).toLocaleString()`
is locale-dependent; every rendering function is therefore parametrised by a
formatter `fmt : JSValue → String` standing for that call.
-/

/-- The shell `renderOnboarding` writes into `tab_onboarding`. -/
def onboardingShell : String :=
  "<h4>Onboarding Submissions</h4>\n    <div class=\"d-flex gap-2 mb-3\">\n      <select id=\"ob_status\" class=\"form-select form-select-sm\" style=\"max-width:220px\" onchange=\"renderOnboarding()\">\n        <option value=\"submitted\">submitted</option>\n        <option value=\"needs_more\">needs_more</option>\n        <option value=\"approved\">approved</option>\n        <option value=\"rejected\">rejected</option>\n        <option value=\"all\">all</option>\n      </select>\n    </div>\n    <div id=\"ob_table\"></div>\n    <div id=\"ob_detail\" class=\"mt-3\"></div>\n  "

/-- One `<tr>` of the onboarding table (`rows.map(r=>...)`). -/
def onboardingRow (fmt : JSValue → String) (r : JSValue) : String :=
  "\n          <tr>\n            <td>" ++ fmt (jsGet r "created_at") ++
    "</td>\n            <td>" ++ jsToString (jsGet r "status") ++
    "</td>\n            <td>" ++ jsToString (jsOr (jsGet r "owner_name") (.str "")) ++
    "</td>\n            <td>" ++ jsToString (jsOr (jsGet r "owner_email") (.str "")) ++
    "</td>\n            <td>" ++ jsToString (jsGet r "ip_assets_count") ++
    "</td>\n            <td><button class=\"btn btn-outline-light btn-sm\" onclick=\"openOnboarding(\x27" ++
    jsToString (jsGet r "id") ++
    "\x27)\">Open</button></td>\n          </tr>\n        "

def onboardingTable (fmt : JSValue → String) (rows : List JSValue) : String :=
  "\n    <table class=\"table table-dark table-sm\">\n      <thead><tr>\n        <th>Created</th><th>Status</th><th>Owner</th><th>Email</th><th>Assets</th><th></th>\n      </tr></thead>\n      <tbody>\n        " ++
    String.join (rows.map (onboardingRow fmt)) ++
    "\n      </tbody>\n    </table>"

/-- The onboarding detail block written into `ob_detail`, for submission `s`
opened under id `id`. -/
def onboardingDetailHTML (id : String) (s : JSValue) : String :=
  "\n    <hr/>\n    <h5>Submission</h5>\n    <div class=\"mono\">ID: " ++ jsToString (jsGet s "id") ++
    "</div>\n    <div class=\"mono\">Status: " ++ jsToString (jsGet s "status") ++
    "</div>\n\n    <div class=\"mt-2 d-flex gap-2\">\n      <select id=\"set_status\" class=\"form-select form-select-sm\" style=\"max-width:220px\">\n        " ++
    String.join (["submitted", "needs_more", "approved", "rejected"].map fun x =>
      "<option " ++ (if jsStrictEqStr (jsGet s "status") x then "selected" else "") ++
        ">" ++ x ++ "</option>") ++
    "\n      </select>\n      <input id=\"set_notes\" class=\"form-control form-control-sm\" placeholder=\"notes (optional)\" value=\"" ++
    (jsToString (jsOr (jsGet s "notes") (.str ""))).replace "\"" "&quot;" ++
    "\"/>\n      <button class=\"btn btn-success btn-sm\" onclick=\"setOnboardingStatus(\x27" ++ id ++
    "\x27)\">Update</button>\n      <button class=\"btn btn-warning btn-sm\" onclick=\"approveOnboarding(\x27" ++ id ++
    "\x27)\">Approve + Create Login</button>\n    </div>\n\n    <pre class=\"mono p-3 mt-3\" style=\"background:#0d1522;border:1px solid #2a3a52;border-radius:8px;max-height:380px;overflow:auto\">" ++
    (stringifyIndent 0 s).getD "undefined" ++
    "</pre>\n  "

/-- The shell `renderVault` writes into `tab_vault`. -/
def vaultShell : String :=
  "\n    <h4>Vault</h4>\n    <div class=\"muted mb-3\">Upload a sealed bundle (ZIP/JSONL) and Atlas stores + hashes it forever.</div>\n\n    <div class=\"row g-2 mb-3\">\n      <div class=\"col-md-2\"><input id=\"v_source\" class=\"form-control form-control-sm\" value=\"dossier\"/></div>\n      <div class=\"col-md-2\"><input id=\"v_org\" class=\"form-control form-control-sm\" placeholder=\"org_id\"/></div>\n      <div class=\"col-md-2\"><input id=\"v_tenant\" class=\"form-control form-control-sm\" placeholder=\"tenant_id\"/></div>\n      <div class=\"col-md-2\"><input id=\"v_schema\" class=\"form-control form-control-sm\" placeholder=\"schema_version\"/></div>\n      <div class=\"col-md-4\"><input id=\"v_manifest\" class=\"form-control form-control-sm\" placeholder=\x27manifest_json (optional JSON)\x27/></div>\n    </div>\n\n    <div class=\"d-flex gap-2 align-items-center mb-3\">\n      <input id=\"v_file\" type=\"file\" class=\"form-control form-control-sm\"/>\n      <button class=\"btn btn-success btn-sm\" onclick=\"vaultUpload()\">Ingest</button>\n    </div>\n\n    <div id=\"v_msg\"></div>\n    <div id=\"v_table\" class=\"mt-3\"></div>\n  "

def vaultRow (fmt : JSValue → String) (r : JSValue) : String :=
  "\n          <tr>\n            <td>" ++ fmt (jsGet r "created_at") ++
    "</td>\n            <td>" ++ jsToString (jsGet r "source_key") ++
    "</td>\n            <td>" ++ jsToString (jsOr (jsGet r "org_id") (.str "")) ++
    "</td>\n            <td class=\"mono\">" ++ jsToString (jsGet r "filename") ++
    "</td>\n            <td class=\"mono\">" ++ jsToString (jsGet r "byte_size") ++
    "</td>\n            <td class=\"mono\" style=\"max-width:240px;overflow:hidden;text-overflow:ellipsis;white-space:nowrap\">" ++
    jsToString (jsGet r "sha256") ++
    "</td>\n            <td><a class=\"btn btn-outline-light btn-sm\" href=\"/api/admin/vault/objects/" ++
    jsToString (jsGet r "id") ++
    "/download\">Download</a></td>\n          </tr>\n        "

def vaultTable (fmt : JSValue → String) (rows : List JSValue) : String :=
  "\n    <table class=\"table table-dark table-sm\">\n      <thead><tr>\n        <th>Created</th><th>Source</th><th>Org</th><th>File</th><th>Bytes</th><th>SHA256</th><th></th>\n      </tr></thead>\n      <tbody>\n        " ++
    String.join (rows.map (vaultRow fmt)) ++
    "\n      </tbody>\n    </table>"

/-- The shell `renderOwners` writes into `tab_owners`. -/
def ownersShell : String :=
  "\n    <h4>IP Owners</h4>\n    <div class=\"row g-2 mb-3\">\n      <div class=\"col-md-4\"><input id=\"o_name\" class=\"form-control form-control-sm\" placeholder=\"legal_name\"/></div>\n      <div class=\"col-md-2\"><input id=\"o_type\" class=\"form-control form-control-sm\" placeholder=\"entity_type\"/></div>\n      <div class=\"col-md-2\"><input id=\"o_jur\" class=\"form-control form-control-sm\" placeholder=\"jurisdiction\"/></div>\n      <div class=\"col-md-4\"><input id=\"o_email\" class=\"form-control form-control-sm\" placeholder=\"email\"/></div>\n      <div class=\"col-md-8\"><input id=\"o_addr\" class=\"form-control form-control-sm\" placeholder=\"address\"/></div>\n      <div class=\"col-md-2\"><input id=\"o_phone\" class=\"form-control form-control-sm\" placeholder=\"phone\"/></div>\n      <div class=\"col-md-2\"><button class=\"btn btn-success btn-sm w-100\" onclick=\"createOwner()\">Create</button></div>\n    </div>\n    <div id=\"o_msg\"></div>\n    <div id=\"o_table\" class=\"mt-3\"></div>\n  "

def ownersRow (fmt : JSValue → String) (r : JSValue) : String :=
  "\n        <tr>\n          <td>" ++ fmt (jsGet r "created_at") ++
    "</td>\n          <td>" ++ jsToString (jsGet r "legal_name") ++
    "</td>\n          <td>" ++ jsToString (jsOr (jsGet r "entity_type") (.str "")) ++
    "</td>\n          <td>" ++ jsToString (jsOr (jsGet r "jurisdiction") (.str "")) ++
    "</td>\n          <td>" ++ jsToString (jsOr (jsGet r "email") (.str "")) ++
    "</td>\n          <td class=\"mono\">" ++ jsToString (jsGet r "id") ++
    "</td>\n        </tr>"

def ownersTable (fmt : JSValue → String) (rows : List JSValue) : String :=
  "\n    <table class=\"table table-dark table-sm\">\n      <thead><tr><th>Created</th><th>Name</th><th>Type</th><th>Jurisdiction</th><th>Email</th><th class=\"mono\">ID</th></tr></thead>\n      <tbody>" ++
    String.join (rows.map (ownersRow fmt)) ++
    "</tbody>\n    </table>"

/-- The shell `renderAssets` writes into `tab_assets`. -/
def assetsShell : String :=
  "\n    <h4>IP Assets</h4>\n    <div class=\"muted mb-2\">Create assets here (you can link an Owner ID or leave null until verified).</div>\n    <div class=\"row g-2 mb-3\">\n      <div class=\"col-md-3\"><input id=\"a_owner\" class=\"form-control form-control-sm\" placeholder=\"owner_id (optional)\"/></div>\n      <div class=\"col-md-4\"><input id=\"a_title\" class=\"form-control form-control-sm\" placeholder=\"title\"/></div>\n      <div class=\"col-md-2\"><input id=\"a_type\" class=\"form-control form-control-sm\" placeholder=\"asset_type\"/></div>\n      <div class=\"col-md-3\"><input id=\"a_reg\" class=\"form-control form-control-sm\" placeholder=\"reg_no\"/></div>\n      <div class=\"col-md-12\"><textarea id=\"a_desc\" class=\"form-control form-control-sm\" rows=\"2\" placeholder=\"description\"></textarea></div>\n      <div class=\"col-md-2\"><button class=\"btn btn-success btn-sm w-100\" onclick=\"createAsset()\">Create</button></div>\n    </div>\n    <div id=\"a_msg\"></div>\n    <div id=\"a_table\" class=\"mt-3\"></div>\n  "

def assetsRow (fmt : JSValue → String) (r : JSValue) : String :=
  "\n        <tr>\n          <td>" ++ fmt (jsGet r "created_at") ++
    "</td>\n          <td>" ++ jsToString (jsGet r "title") ++
    "</td>\n          <td>" ++ jsToString (jsOr (jsGet r "asset_type") (.str "")) ++
    "</td>\n          <td>" ++ jsToString (jsOr (jsGet r "status") (.str "")) ++
    "</td>\n          <td>" ++ jsToString (jsOr (jsGet r "reg_no") (.str "")) ++
    "</td>\n          <td>" ++ jsToString (jsOr (jsGet r "owner_name") (.str "")) ++
    "</td>\n          <td class=\"mono\">" ++ jsToString (jsGet r "id") ++
    "</td>\n        </tr>"

def assetsTable (fmt : JSValue → String) (rows : List JSValue) : String :=
  "\n    <table class=\"table table-dark table-sm\">\n      <thead><tr><th>Created</th><th>Title</th><th>Type</th><th>Status</th><th>Reg No</th><th>Owner</th><th class=\"mono\">ID</th></tr></thead>\n      <tbody>" ++
    String.join (rows.map (assetsRow fmt)) ++
    "</tbody>\n    </table>"

/-!
The async page operations.  Each takes the DOM values it reads and the
`Response` the environment returns for each request it issues, in program
order.  The source reads `document.getElementById(...).value` for form
fields; those reads are passed in as `String` parameters.
-/

/-- `async function logout()`. -/
def logout (resp : Response) : OpResult Unit :=
  opBind (api "POST" "/api/auth/logout" none resp) fun _ =>
    emit (.redirect "/static/atlas-login.html")

/--
`async function renderOnboarding()`: write the shell, read the status
select (`obStatus` is the value the freshly rebuilt select holds — its
default is "submitted"), fetch the list, write the table.  `data.items || []`
must be an array for `.map`; `jsElems` renders a non-array as no rows.
-/
def renderOnboarding (fmt : JSValue → String) (obStatus : String)
    (resp : Response) : OpResult Unit :=
  opBind (emit (.setHTML "tab_onboarding" onboardingShell)) fun _ =>
  opBind (api "GET"
      ("/api/admin/onboarding?status=" ++ encodeURIComponent obStatus ++ "&limit=50")
      none resp) fun data =>
  emit (.setHTML "ob_table"
    (onboardingTable fmt (jsElems (jsOr (jsGet data "items") (.arr [])))))

/-- The placeholder `openOnboarding` shows while its fetch is in flight. -/
def loadingHTML : String := "<div class=\"text-secondary\">Loading…</div>"

/-- `async function openOnboarding(id)`. -/
def openOnboarding (id : String) (resp : Response) : OpResult Unit :=
  opBind (emit (.setHTML "ob_detail" loadingHTML)) fun _ =>
  opBind (api "GET" ("/api/admin/onboarding/" ++ id) none resp) fun data =>
  emit (.setHTML "ob_detail" (onboardingDetailHTML id (jsGet data "submission")))

/-- `async function approveOnboarding(id)`: `confirmed` is the operator's
answer to the `confirm(...)` dialog; on decline the function returns at
once.  `obStatus2` is the select value the nested `renderOnboarding` reads. -/
def approveOnboarding (fmt : JSValue → String) (id : String) (confirmed : Bool)
    (obStatus2 : String) (approveResp listResp detailResp : Response) :
    OpResult Unit :=
  opBind (emit (.confirmBox "Approve this onboarding and create Owner + Assets + Owner login?")) fun _ =>
  if confirmed then
    opBind (api "POST" ("/api/admin/onboarding/" ++ id ++ "/approve") none approveResp) fun j =>
    opBind (emit (.alertBox
      ("OWNER LOGIN CREATED\n\nEmail: " ++ jsToString (jsGet j "user_email") ++
        "\nTemp Password: " ++ jsToString (jsGet j "temp_password") ++
        "\n\n(You should copy this now.)"))) fun _ =>
    opBind (renderOnboarding fmt obStatus2 listResp) fun _ =>
    openOnboarding id detailResp
  else opPure ()

/-- `async function setOnboardingStatus(id)`: `status` and `notes` are the
values of `set_status` and `set_notes`. -/
def setOnboardingStatus (fmt : JSValue → String) (id status notes : String)
    (obStatus2 : String) (postResp listResp detailResp : Response) :
    OpResult Unit :=
  opBind (api "POST" ("/api/admin/onboarding/" ++ id ++ "/status")
      (jsonStringify (.obj [("status", .str status), ("notes", .str notes)]))
      postResp) fun _ =>
  opBind (renderOnboarding fmt obStatus2 listResp) fun _ =>
  openOnboarding id detailResp

/-- `async function refreshVaultList()`. -/
def refreshVaultList (fmt : JSValue → String) (resp : Response) : OpResult Unit :=
  opBind (api "GET" "/api/admin/vault/objects?source_key=all&limit=50" none resp) fun data =>
  emit (.setHTML "v_table"
    (vaultTable fmt (jsElems (jsOr (jsGet data "items") (.arr [])))))

/-- `async function renderVault()`. -/
def renderVault (fmt : JSValue → String) (listResp : Response) : OpResult Unit :=
  opBind (emit (.setHTML "tab_vault" vaultShell)) fun _ =>
  refreshVaultList fmt listResp

/-- The inline success alert of `vaultUpload`. -/
def vaultSuccessHTML (j : JSValue) : String :=
  "<div class=\"alert alert-success\">Ingested. Object ID: <span class=\"mono\">" ++
    jsToString (jsGet j "object_id") ++
    "</span><br/>SHA256: <span class=\"mono\">" ++ jsToString (jsGet j "sha256") ++
    "</span></div>"

/--
The `try{...}` block of `vaultUpload`, after the file was appended: the
`fetch` of `/api/vault/ingest` (multipart body of the five trimmed fields
plus the file; the payload is not inspected by any property and is not
recorded in the action), the uncaught `r.json()` (a parse failure rejects
with a SyntaxError), the ok-check throwing `j.detail || "ingest failed"`,
and on success the inline alert and the list refresh.
-/
def vaultUploadAttempt (fmt : JSValue → String) (resp listResp : Response) :
    OpResult Unit :=
  opBind (emit (.request "POST" "/api/vault/ingest" none)) fun _ =>
  match resp.body with
  | none => opThrow .parseError
  | some j =>
    if resp.ok then
      opBind (emit (.setHTML "v_msg" (vaultSuccessHTML j))) fun _ =>
      refreshVaultList fmt listResp
    else opThrow (.jsError (jsToString (jsOr (jsGet j "detail") (.str "ingest failed"))))

/-- `async function vaultUpload()`: `hasFile` tells whether
`document.getElementById("v_file").files[0]` exists. -/
def vaultUpload (fmt : JSValue → String) (hasFile : Bool)
    (resp listResp : Response) : OpResult Unit :=
  opBind (emit (.setHTML "v_msg" "")) fun _ =>
  if hasFile then
    opCatch (vaultUploadAttempt fmt resp listResp) fun e =>
      emit (.setHTML "v_msg" ("<div class=\"alert alert-danger\">" ++ errToString e ++ "</div>"))
  else
    emit (.setHTML "v_msg" "<div class=\"alert alert-danger\">Choose a file.</div>")

/-- Leading-whitespace removal on a character list. -/
def trimStartList : List Char → List Char
  | [] => []
  | c :: cs => if c.isWhitespace then trimStartList cs else c :: cs

/-- Model of JavaScript `String.prototype.trim()`: strip leading and
trailing whitespace. -/
def jsTrim (s : String) : String :=
  String.mk ((trimStartList (trimStartList s.toList).reverse).reverse)

example : jsTrim "  a b  " = "a b" := by decide
example : jsTrim " \t\n " = "" := by decide

/-- `async function refreshOwners()`. -/
def refreshOwners (fmt : JSValue → String) (resp : Response) : OpResult Unit :=
  opBind (api "GET" "/api/admin/owners?limit=50" none resp) fun data =>
  emit (.setHTML "o_table"
    (ownersTable fmt (jsElems (jsOr (jsGet data "items") (.arr [])))))

/-- `async function renderOwners()`. -/
def renderOwners (fmt : JSValue → String) (listResp : Response) : OpResult Unit :=
  opBind (emit (.setHTML "tab_owners" ownersShell)) fun _ =>
  refreshOwners fmt listResp

/-- The JSON payload `createOwner` builds from the six form fields. -/
def createOwnerPayload (oName oType oJur oEmail oAddr oPhone : String) : JSValue :=
  .obj [("legal_name", .str (jsTrim oName)), ("entity_type", .str (jsTrim oType)),
        ("jurisdiction", .str (jsTrim oJur)), ("email", .str (jsTrim oEmail)),
        ("address", .str (jsTrim oAddr)), ("phone", .str (jsTrim oPhone))]

/-- `async function createOwner()`. -/
def createOwner (fmt : JSValue → String) (oName oType oJur oEmail oAddr oPhone : String)
    (postResp listResp : Response) : OpResult Unit :=
  opCatch
    (opBind (api "POST" "/api/admin/owners"
        (jsonStringify (createOwnerPayload oName oType oJur oEmail oAddr oPhone))
        postResp) fun j =>
      opBind (emit (.setHTML "o_msg"
        ("<div class=\"alert alert-success\">Created owner " ++
          jsToString (jsGet j "id") ++ "</div>"))) fun _ =>
      refreshOwners fmt listResp)
    fun e =>
      emit (.setHTML "o_msg"
        ("<div class=\"alert alert-danger\">" ++ errToString e ++ "</div>"))

/-- `async function refreshAssets()`. -/
def refreshAssets (fmt : JSValue → String) (resp : Response) : OpResult Unit :=
  opBind (api "GET" "/api/admin/assets?limit=50" none resp) fun data =>
  emit (.setHTML "a_table"
    (assetsTable fmt (jsElems (jsOr (jsGet data "items") (.arr [])))))

/-- `async function renderAssets()`. -/
def renderAssets (fmt : JSValue → String) (listResp : Response) : OpResult Unit :=
  opBind (emit (.setHTML "tab_assets" assetsShell)) fun _ =>
  refreshAssets fmt listResp

/-- The JSON payload `createAsset` builds: `owner_id` is
`value.trim() || null`, the other four fields are the trimmed values. -/
def createAssetPayload (aOwner aTitle aType aReg aDesc : String) : JSValue :=
  .obj [("owner_id", jsOr (.str (jsTrim aOwner)) .nullv),
        ("title", .str (jsTrim aTitle)), ("asset_type", .str (jsTrim aType)),
        ("reg_no", .str (jsTrim aReg)), ("description", .str (jsTrim aDesc))]

/-- `async function createAsset()`. -/
def createAsset (fmt : JSValue → String) (aOwner aTitle aType aReg aDesc : String)
    (postResp listResp : Response) : OpResult Unit :=
  opCatch
    (opBind (api "POST" "/api/admin/assets"
        (jsonStringify (createAssetPayload aOwner aTitle aType aReg aDesc))
        postResp) fun j =>
      opBind (emit (.setHTML "a_msg"
        ("<div class=\"alert alert-success\">Created asset " ++
          jsToString (jsGet j "id") ++ "</div>"))) fun _ =>
      refreshAssets fmt listResp)
    fun e =>
      emit (.setHTML "a_msg"
        ("<div class=\"alert alert-danger\">" ++ errToString e ++ "</div>"))

/-- The four tab names, in the order `showTab` iterates them. -/
def tabNames : List String := ["onboarding", "vault", "owners", "assets"]

/-- The responses (and the one DOM read) the tab render routines consume. -/
structure TabEnv where
  obStatus : String
  onboardingResp : Response
  vaultResp : Response
  ownersResp : Response
  assetsResp : Response

/-- The `forEach` of `showTab`: the selected container gets display "block",
every other one "none". -/
def displayActions (name : String) : Trace :=
  tabNames.map fun t =>
    .setDisplay ("tab_" ++ t) (if t = name then "block" else "none")

/-- `function showTab(name)`: set every container's display, then invoke the
selected tab's render routine. -/
def showTab (fmt : JSValue → String) (name : String) (env : TabEnv) : OpResult Unit :=
  opBind (emitAll (displayActions name)) fun _ =>
  if name = "onboarding" then renderOnboarding fmt env.obStatus env.onboardingResp
  else if name = "vault" then renderVault fmt env.vaultResp
  else if name = "owners" then renderOwners fmt env.ownersResp
  else if name = "assets" then renderAssets fmt env.assetsResp
  else opPure ()

/-- The IIFE `(async function init(){...})()`: the `try` wraps only the
identity check; either `return` path redirects and skips `showTab`. -/
def initPage (fmt : JSValue → String) (meResp : Response) (env : TabEnv) :
    OpResult Unit :=
  match api "GET" "/api/auth/me" none meResp with
  | (tr, .error _) => (tr ++ [.redirect "/static/atlas-login.html"], .ok ())
  | (tr, .ok me) =>
    if jsTruthy (jsGet me "email") then
      opBind (emitAll tr) fun _ => showTab fmt "onboarding" env
    else (tr ++ [.redirect "/static/atlas-login.html"], .ok ())

/-! Functional update on object fields, used to compare a record that lacks
an optional field with the same record carrying it explicitly. -/

def setField : List (String × JSValue) → String → JSValue → List (String × JSValue)
  | [], key, x => [(key, x)]
  | (k, v) :: rest, key, x =>
    if k = key then (k, x) :: rest else (k, v) :: setField rest key x

def jsSet (v : JSValue) (key : String) (x : JSValue) : JSValue :=
  match v with
  | .obj fs => .obj (setField fs key x)
  | w => w

/-! Structural lemmas about the trace monad. -/

theorem opBind_emit_eq {β : Type} (a : Action) (f : Unit → OpResult β) :
    opBind (emit a) f = (a :: (f ()).1, (f ()).2) := by
  cases hf : f () with
  | mk tr r => simp [opBind, emit, hf]

theorem opBind_emitAll_eq {β : Type} (tr : Trace) (f : Unit → OpResult β) :
    opBind (emitAll tr) f = (tr ++ (f ()).1, (f ()).2) := by
  cases hf : f () with
  | mk tr2 r => simp [opBind, emitAll, hf]

theorem opCatch_fst (x : OpResult Unit) (h : JSError → OpResult Unit) :
    ∃ t, (opCatch x h).1 = x.1 ++ t := by
  cases x with
  | mk tr r =>
    cases r with
    | error e =>
      cases hh : h e with
      | mk tr2 r2 => exact ⟨tr2, by simp [opCatch, hh]⟩
    | ok a => exact ⟨[], by simp [opCatch]⟩

theorem opCatch_emit_snd (x : OpResult Unit) (g : JSError → Action) :
    (opCatch x fun e => emit (g e)).2 = .ok () := by
  cases x with
  | mk tr r =>
    cases r with
    | error e => simp [opCatch, emit]
    | ok a => simp [opCatch]

theorem lookupField_setField (fs : List (String × JSValue)) (key key2 : String)
    (x : JSValue) :
    lookupField (setField fs key x) key2 =
      if key2 = key then x else lookupField fs key2 := by
  induction fs with
  | nil =>
    by_cases h : key2 = key
    · subst h; simp [setField, lookupField]
    · have h2 : ¬(key = key2) := fun hh => h hh.symm
      simp [setField, lookupField, h, h2]
  | cons kv rest ih =>
    obtain ⟨k, v⟩ := kv
    by_cases hk : k = key
    · subst hk
      by_cases h2 : key2 = k
      · subst h2; simp [setField, lookupField]
      · have h3 : ¬(k = key2) := fun hh => h2 hh.symm
        simp [setField, lookupField, h2, h3]
    · by_cases h2 : key2 = k
      · subst h2
        simp [setField, lookupField, hk]
      · have h3 : ¬(k = key2) := fun hh => h2 hh.symm
        simp [setField, lookupField, hk, h2, h3, ih]

/-! The traces of the fetch-and-render routines on a successful response. -/

theorem api_ok (m p : String) (b : Option String) (r : Response) (h : r.ok = true) :
    api m p b r = ([.request m p b], .ok (parseBodyCaught r)) := by
  simp [api, opBind, emit, opPure, h]

theorem api_err (m p : String) (b : Option String) (r : Response) (h : r.ok = false) :
    api m p b r = ([.request m p b], .error (.jsError (apiErrMsg r))) := by
  simp [api, opBind, emit, opThrow, h]

theorem renderOnboarding_ok (fmt : JSValue → String) (obStatus : String)
    (r : Response) (h : r.ok = true) :
    renderOnboarding fmt obStatus r =
      ([.setHTML "tab_onboarding" onboardingShell,
        .request "GET"
          ("/api/admin/onboarding?status=" ++ encodeURIComponent obStatus ++ "&limit=50")
          none,
        .setHTML "ob_table"
          (onboardingTable fmt
            (jsElems (jsOr (jsGet (parseBodyCaught r) "items") (.arr []))))],
       .ok ()) := by
  simp [renderOnboarding, api_ok _ _ _ _ h, opBind, emit]

theorem openOnboarding_ok (id : String) (r : Response) (h : r.ok = true) :
    openOnboarding id r =
      ([.setHTML "ob_detail" loadingHTML,
        .request "GET" ("/api/admin/onboarding/" ++ id) none,
        .setHTML "ob_detail"
          (onboardingDetailHTML id (jsGet (parseBodyCaught r) "submission"))],
       .ok ()) := by
  simp [openOnboarding, api_ok _ _ _ _ h, opBind, emit]

theorem refreshVaultList_ok (fmt : JSValue → String) (r : Response) (h : r.ok = true) :
    refreshVaultList fmt r =
      ([.request "GET" "/api/admin/vault/objects?source_key=all&limit=50" none,
        .setHTML "v_table"
          (vaultTable fmt (jsElems (jsOr (jsGet (parseBodyCaught r) "items") (.arr []))))],
       .ok ()) := by
  simp [refreshVaultList, api_ok _ _ _ _ h, opBind, emit]

theorem refreshOwners_ok (fmt : JSValue → String) (r : Response) (h : r.ok = true) :
    refreshOwners fmt r =
      ([.request "GET" "/api/admin/owners?limit=50" none,
        .setHTML "o_table"
          (ownersTable fmt (jsElems (jsOr (jsGet (parseBodyCaught r) "items") (.arr []))))],
       .ok ()) := by
  simp [refreshOwners, api_ok _ _ _ _ h, opBind, emit]

theorem refreshAssets_ok (fmt : JSValue → String) (r : Response) (h : r.ok = true) :
    refreshAssets fmt r =
      ([.request "GET" "/api/admin/assets?limit=50" none,
        .setHTML "a_table"
          (assetsTable fmt (jsElems (jsOr (jsGet (parseBodyCaught r) "items") (.arr []))))],
       .ok ()) := by
  simp [refreshAssets, api_ok _ _ _ _ h, opBind, emit]

/-- Claim C10: in the `api` helper, the fallback message "HTTP status" is
used for every falsy `detail` value of a non-2xx response — absent field,
empty string, null, false — and for a body that fails to parse as JSON
(the parse failure is swallowed and treated as an empty object); a truthy
`detail` always takes precedence over the status code. -/
theorem c10_api_error_fallback (m p : String) (b : Option String) (r : Response)
    (h : r.ok = false) :
    (r.body = none →
      api m p b r =
        ([.request m p b], .error (.jsError ("HTTP " ++ toString r.status)))) ∧
    (∀ fs, r.body = some (.obj fs) → jsTruthy (lookupField fs "detail") = false →
      api m p b r =
        ([.request m p b], .error (.jsError ("HTTP " ++ toString r.status)))) ∧
    (∀ fs, r.body = some (.obj fs) → jsTruthy (lookupField fs "detail") = true →
      api m p b r =
        ([.request m p b], .error (.jsError (jsToString (lookupField fs "detail"))))) := by
  refine ⟨?_, ?_, ?_⟩
  · intro hb
    rw [api_err _ _ _ _ h]
    simp [apiErrMsg, parseBodyCaught, hb, jsGet, lookupField, jsOr, jsTruthy, jsToString]
  · intro fs hb hfalse
    rw [api_err _ _ _ _ h]
    simp [apiErrMsg, parseBodyCaught, hb, jsGet, jsOr, hfalse, jsToString]
  · intro fs hb htrue
    rw [api_err _ _ _ _ h]
    simp [apiErrMsg, parseBodyCaught, hb, jsGet, jsOr, htrue]

/-- Witness for C10 at concrete inputs: a bodyless 503 falls back to
"HTTP 503"; a 400 with detail "bad input" surfaces "bad input". -/
theorem c10_api_error_fallback_witness :
    (api "GET" "/api/admin/owners?limit=50" none ⟨false, 503, none⟩ =
      ([.request "GET" "/api/admin/owners?limit=50" none],
       .error (.jsError "HTTP 503"))) ∧
    (api "POST" "/api/admin/assets" none
        ⟨false, 400, some (.obj [("detail", .str "bad input")])⟩ =
      ([.request "POST" "/api/admin/assets" none],
       .error (.jsError "bad input"))) :=
  ⟨(c10_api_error_fallback "GET" "/api/admin/owners?limit=50" none
      ⟨false, 503, none⟩ rfl).1 rfl,
   (c10_api_error_fallback "POST" "/api/admin/assets" none
      ⟨false, 400, some (.obj [("detail", .str "bad input")])⟩ rfl).2.2
      [("detail", .str "bad input")] rfl rfl⟩

/-- Claim C1 is false as stated: the vault ingest operation (one of the
operations, and one of the claim's own cited sources) does not fall back to
"HTTP status".  On a non-2xx response whose JSON body has no `detail`, its
thrown error message is "ingest failed", and the inline alert shown to the
user reads "Error: ingest failed" — neither is "HTTP 500". -/
theorem c1_counterexample :
    vaultUpload (fun _ => "") true ⟨false, 500, some (.obj [])⟩
        ⟨false, 500, some (.obj [])⟩ =
      ([.setHTML "v_msg" "",
        .request "POST" "/api/vault/ingest" none,
        .setHTML "v_msg" "<div class=\"alert alert-danger\">Error: ingest failed</div>"],
       .ok ()) ∧
    vaultUploadAttempt (fun _ => "") ⟨false, 500, some (.obj [])⟩
        ⟨false, 500, some (.obj [])⟩ =
      ([.request "POST" "/api/vault/ingest" none],
       .error (.jsError "ingest failed")) ∧
    "ingest failed" ≠ "HTTP 500" :=
  ⟨rfl, rfl, by decide⟩

/-- Claim C1 amended: for every operation that uses the `api` helper, a
non-2xx response surfaces the body's `detail` string exactly when it is a
truthy string, and "HTTP status" when `detail` is absent; the vault ingest
operation instead surfaces `detail` when truthy and falls back to the
string "ingest failed" when `detail` is absent. -/
theorem c1_error_message (m p : String) (b : Option String) (r : Response)
    (h : r.ok = false) :
    (∀ s, jsGet (parseBodyCaught r) "detail" = .str s → s ≠ "" →
      (api m p b r).2 = .error (.jsError s)) ∧
    (jsGet (parseBodyCaught r) "detail" = .undefV →
      (api m p b r).2 = .error (.jsError ("HTTP " ++ toString r.status))) ∧
    (∀ (fmt : JSValue → String) (listResp : Response) (fs : List (String × JSValue)),
      r.body = some (.obj fs) →
      ((∀ s, lookupField fs "detail" = .str s → s ≠ "" →
          (vaultUploadAttempt fmt r listResp).2 = .error (.jsError s)) ∧
       (lookupField fs "detail" = .undefV →
          (vaultUploadAttempt fmt r listResp).2 = .error (.jsError "ingest failed")))) := by
  refine ⟨?_, ?_, ?_⟩
  · intro s hd hs
    rw [api_err _ _ _ _ h]
    simp [apiErrMsg, hd, jsOr, jsTruthy, jsToString, hs]
  · intro hd
    rw [api_err _ _ _ _ h]
    simp [apiErrMsg, hd, jsOr, jsTruthy, jsToString]
  · intro fmt listResp fs hb
    constructor
    · intro s hd hs
      simp [vaultUploadAttempt, opBind_emit_eq, hb, h, opThrow, jsGet, hd, jsOr,
        jsTruthy, jsToString, hs]
    · intro hd
      simp [vaultUploadAttempt, opBind_emit_eq, hb, h, opThrow, jsGet, hd, jsOr,
        jsTruthy, jsToString]

/-- Witness for the amended C1 at concrete inputs: a 400 with detail
"bad input" surfaces "bad input" through `api`; a bodyless 404 surfaces
"HTTP 404" through `api`; a detail-less 500 surfaces "ingest failed"
through the ingest path. -/
theorem c1_error_message_witness :
    (api "GET" "/api/admin/owners?limit=50" none
        ⟨false, 400, some (.obj [("detail", .str "bad input")])⟩).2 =
      .error (.jsError "bad input") ∧
    (api "GET" "/api/admin/owners?limit=50" none ⟨false, 404, none⟩).2 =
      .error (.jsError "HTTP 404") ∧
    (vaultUploadAttempt (fun _ => "") ⟨false, 500, some (.obj [])⟩
        ⟨false, 500, some (.obj [])⟩).2 =
      .error (.jsError "ingest failed") :=
  ⟨(c1_error_message "GET" "/api/admin/owners?limit=50" none
      ⟨false, 400, some (.obj [("detail", .str "bad input")])⟩ rfl).1
      "bad input" rfl (by decide),
   (c1_error_message "GET" "/api/admin/owners?limit=50" none
      ⟨false, 404, none⟩ rfl).2.1 rfl,
   ((c1_error_message "GET" "/x" none ⟨false, 500, some (.obj [])⟩ rfl).2.2
      (fun _ => "") ⟨false, 500, some (.obj [])⟩ [] rfl).2 rfl⟩

/-- Claim C2 is false as stated: `renderOnboarding` — one of the operations
the claim lists — does not catch its own failure.  On a failing list fetch
the error escapes the operation unhandled (the result is `Except.error`,
and no inline alert is rendered). -/
theorem c2_counterexample :
    renderOnboarding (fun _ => "") "submitted" ⟨false, 500, none⟩ =
      ([.setHTML "tab_onboarding" onboardingShell,
        .request "GET" "/api/admin/onboarding?status=submitted&limit=50" none],
       .error (.jsError "HTTP 500")) := rfl

/-- Claim C2 amended: exactly the three form-submission operations
(`vaultUpload`, `createOwner`, `createAsset`) catch their own failures —
for every input and response their result is `ok`, never an escaped
error — while each of the seven other operations (`renderOnboarding`,
`openOnboarding`, `setOnboardingStatus`, `approveOnboarding`,
`refreshVaultList`, `refreshOwners`, `refreshAssets`) lets a failing API
call escape unhandled, shown here on a bodyless 500 response. -/
theorem c2_catch_behaviour :
    (∀ (fmt : JSValue → String) (hasFile : Bool) (resp listResp : Response),
      (vaultUpload fmt hasFile resp listResp).2 = .ok ()) ∧
    (∀ (fmt : JSValue → String) (a b c d e f : String) (postResp listResp : Response),
      (createOwner fmt a b c d e f postResp listResp).2 = .ok ()) ∧
    (∀ (fmt : JSValue → String) (a b c d e : String) (postResp listResp : Response),
      (createAsset fmt a b c d e postResp listResp).2 = .ok ()) ∧
    (renderOnboarding (fun _ => "") "submitted" ⟨false, 500, none⟩).2 =
      .error (.jsError "HTTP 500") ∧
    (openOnboarding "x" ⟨false, 500, none⟩).2 = .error (.jsError "HTTP 500") ∧
    (setOnboardingStatus (fun _ => "") "x" "approved" "" "submitted"
      ⟨false, 500, none⟩ ⟨false, 500, none⟩ ⟨false, 500, none⟩).2 =
      .error (.jsError "HTTP 500") ∧
    (approveOnboarding (fun _ => "") "x" true "submitted"
      ⟨false, 500, none⟩ ⟨false, 500, none⟩ ⟨false, 500, none⟩).2 =
      .error (.jsError "HTTP 500") ∧
    (refreshVaultList (fun _ => "") ⟨false, 500, none⟩).2 =
      .error (.jsError "HTTP 500") ∧
    (refreshOwners (fun _ => "") ⟨false, 500, none⟩).2 =
      .error (.jsError "HTTP 500") ∧
    (refreshAssets (fun _ => "") ⟨false, 500, none⟩).2 =
      .error (.jsError "HTTP 500") := by
  refine ⟨?_, ?_, ?_, rfl, rfl, rfl, rfl, rfl, rfl, rfl⟩
  · intro fmt hasFile resp listResp
    cases hasFile with
    | false => rfl
    | true =>
      rcases hx : vaultUploadAttempt fmt resp listResp with ⟨tr, rr⟩
      cases rr <;> simp [vaultUpload, opBind, emit, opCatch, hx]
  · intro fmt a b c d e f postResp listResp
    simp only [createOwner]
    exact opCatch_emit_snd _ _
  · intro fmt a b c d e postResp listResp
    simp only [createAsset]
    exact opCatch_emit_snd _ _

/-- Claim C3: a list record whose optional fields are absent renders with
the empty string in those cells — the guarded interpolations evaluate to
`""`, never to "undefined" — and the whole row is rendered exactly as if
the absent fields were present with the value `""`.  (Rendering is a total
Lean function here, so it cannot throw.)  Shown for the onboarding row
(optional `owner_name`, `owner_email`) and the vault row (optional
`org_id`). -/
theorem c3_absent_optional_fields (fmt : JSValue → String)
    (fs gs : List (String × JSValue))
    (hn : lookupField fs "owner_name" = .undefV)
    (he : lookupField fs "owner_email" = .undefV)
    (ho : lookupField gs "org_id" = .undefV) :
    jsToString (jsOr (jsGet (.obj fs) "owner_name") (.str "")) = "" ∧
    jsToString (jsOr (jsGet (.obj fs) "owner_email") (.str "")) = "" ∧
    jsToString (jsOr (jsGet (.obj gs) "org_id") (.str "")) = "" ∧
    onboardingRow fmt (.obj fs) =
      onboardingRow fmt
        (jsSet (jsSet (.obj fs) "owner_name" (.str "")) "owner_email" (.str "")) ∧
    vaultRow fmt (.obj gs) = vaultRow fmt (jsSet (.obj gs) "org_id" (.str "")) := by
  refine ⟨?_, ?_, ?_, ?_, ?_⟩
  · simp [jsGet, hn, jsOr, jsTruthy, jsToString]
  · simp [jsGet, he, jsOr, jsTruthy, jsToString]
  · simp [jsGet, ho, jsOr, jsTruthy, jsToString]
  · simp [onboardingRow, jsSet, jsGet, lookupField_setField, hn, he, jsOr,
      jsTruthy, jsToString]
  · simp [vaultRow, jsSet, jsGet, lookupField_setField, ho, jsOr, jsTruthy,
      jsToString]

/-- Witness for C3: a concrete onboarding record with `owner_name` and
`owner_email` absent, and a concrete vault record with `org_id` absent. -/
theorem c3_absent_optional_fields_witness :
    jsToString (jsOr (jsGet (.obj [("status", .str "submitted")]) "owner_name") (.str "")) = "" ∧
    jsToString (jsOr (jsGet (.obj [("status", .str "submitted")]) "owner_email") (.str "")) = "" ∧
    jsToString (jsOr (jsGet (.obj [("filename", .str "a.zip")]) "org_id") (.str "")) = "" ∧
    onboardingRow (fun _ => "") (.obj [("status", .str "submitted")]) =
      onboardingRow (fun _ => "")
        (jsSet (jsSet (.obj [("status", .str "submitted")]) "owner_name" (.str ""))
          "owner_email" (.str "")) ∧
    vaultRow (fun _ => "") (.obj [("filename", .str "a.zip")]) =
      vaultRow (fun _ => "") (jsSet (.obj [("filename", .str "a.zip")]) "org_id" (.str "")) :=
  c3_absent_optional_fields (fun _ => "") [("status", .str "submitted")]
    [("filename", .str "a.zip")] rfl rfl rfl

/-- Claim C4: after every successful mutation the affected list is fully
re-fetched and re-rendered, and the onboarding detail as well where
applicable.  Each clause gives the complete trace: the mutating request is
followed by the full render cycle of the affected views (shell or message
write, GET of the list, table write — and for onboarding the detail
placeholder, GET of the record, detail write). -/
theorem c4_refetch_after_mutation :
    (∀ (fmt : JSValue → String) (id st nt obStatus2 : String)
        (pR lR dR : Response), pR.ok = true → lR.ok = true → dR.ok = true →
      setOnboardingStatus fmt id st nt obStatus2 pR lR dR =
        ([.request "POST" ("/api/admin/onboarding/" ++ id ++ "/status")
            (jsonStringify (.obj [("status", .str st), ("notes", .str nt)])),
          .setHTML "tab_onboarding" onboardingShell,
          .request "GET"
            ("/api/admin/onboarding?status=" ++ encodeURIComponent obStatus2 ++ "&limit=50")
            none,
          .setHTML "ob_table"
            (onboardingTable fmt (jsElems (jsOr (jsGet (parseBodyCaught lR) "items") (.arr [])))),
          .setHTML "ob_detail" loadingHTML,
          .request "GET" ("/api/admin/onboarding/" ++ id) none,
          .setHTML "ob_detail"
            (onboardingDetailHTML id (jsGet (parseBodyCaught dR) "submission"))],
         .ok ())) ∧
    (∀ (fmt : JSValue → String) (id obStatus2 : String) (aR lR dR : Response),
        aR.ok = true → lR.ok = true → dR.ok = true →
      approveOnboarding fmt id true obStatus2 aR lR dR =
        ([.confirmBox "Approve this onboarding and create Owner + Assets + Owner login?",
          .request "POST" ("/api/admin/onboarding/" ++ id ++ "/approve") none,
          .alertBox
            ("OWNER LOGIN CREATED\n\nEmail: " ++
              jsToString (jsGet (parseBodyCaught aR) "user_email") ++
              "\nTemp Password: " ++
              jsToString (jsGet (parseBodyCaught aR) "temp_password") ++
              "\n\n(You should copy this now.)"),
          .setHTML "tab_onboarding" onboardingShell,
          .request "GET"
            ("/api/admin/onboarding?status=" ++ encodeURIComponent obStatus2 ++ "&limit=50")
            none,
          .setHTML "ob_table"
            (onboardingTable fmt (jsElems (jsOr (jsGet (parseBodyCaught lR) "items") (.arr [])))),
          .setHTML "ob_detail" loadingHTML,
          .request "GET" ("/api/admin/onboarding/" ++ id) none,
          .setHTML "ob_detail"
            (onboardingDetailHTML id (jsGet (parseBodyCaught dR) "submission"))],
         .ok ())) ∧
    (∀ (fmt : JSValue → String) (j : JSValue) (resp lR : Response),
        resp.ok = true → resp.body = some j → lR.ok = true →
      vaultUpload fmt true resp lR =
        ([.setHTML "v_msg" "",
          .request "POST" "/api/vault/ingest" none,
          .setHTML "v_msg" (vaultSuccessHTML j),
          .request "GET" "/api/admin/vault/objects?source_key=all&limit=50" none,
          .setHTML "v_table"
            (vaultTable fmt (jsElems (jsOr (jsGet (parseBodyCaught lR) "items") (.arr []))))],
         .ok ())) ∧
    (∀ (fmt : JSValue → String) (a b c d e f : String) (pR lR : Response),
        pR.ok = true → lR.ok = true →
      createOwner fmt a b c d e f pR lR =
        ([.request "POST" "/api/admin/owners"
            (jsonStringify (createOwnerPayload a b c d e f)),
          .setHTML "o_msg"
            ("<div class=\"alert alert-success\">Created owner " ++
              jsToString (jsGet (parseBodyCaught pR) "id") ++ "</div>"),
          .request "GET" "/api/admin/owners?limit=50" none,
          .setHTML "o_table"
            (ownersTable fmt (jsElems (jsOr (jsGet (parseBodyCaught lR) "items") (.arr []))))],
         .ok ())) ∧
    (∀ (fmt : JSValue → String) (a b c d e : String) (pR lR : Response),
        pR.ok = true → lR.ok = true →
      createAsset fmt a b c d e pR lR =
        ([.request "POST" "/api/admin/assets"
            (jsonStringify (createAssetPayload a b c d e)),
          .setHTML "a_msg"
            ("<div class=\"alert alert-success\">Created asset " ++
              jsToString (jsGet (parseBodyCaught pR) "id") ++ "</div>"),
          .request "GET" "/api/admin/assets?limit=50" none,
          .setHTML "a_table"
            (assetsTable fmt (jsElems (jsOr (jsGet (parseBodyCaught lR) "items") (.arr []))))],
         .ok ())) := by
  refine ⟨?_, ?_, ?_, ?_, ?_⟩
  · intro fmt id st nt obStatus2 pR lR dR hp hl hd
    simp [setOnboardingStatus, api_ok _ _ _ _ hp, renderOnboarding_ok _ _ _ hl,
      openOnboarding_ok _ _ hd, opBind]
  · intro fmt id obStatus2 aR lR dR ha hl hd
    simp [approveOnboarding, api_ok _ _ _ _ ha, renderOnboarding_ok _ _ _ hl,
      openOnboarding_ok _ _ hd, opBind, emit]
  · intro fmt j resp lR hok hb hl
    simp [vaultUpload, vaultUploadAttempt, hb, hok, opBind, emit, opCatch,
      refreshVaultList_ok _ _ hl]
  · intro fmt a b c d e f pR lR hp hl
    simp [createOwner, api_ok _ _ _ _ hp, refreshOwners_ok _ _ hl, opBind,
      emit, opCatch]
  · intro fmt a b c d e pR lR hp hl
    simp [createAsset, api_ok _ _ _ _ hp, refreshAssets_ok _ _ hl, opBind,
      emit, opCatch]

/-- Witness for C4 at concrete inputs (successful responses whose bodies
parse to the empty object, so every list renders zero rows). -/
theorem c4_refetch_after_mutation_witness :
    setOnboardingStatus (fun _ => "") "id1" "approved" "n" "submitted"
        ⟨true, 200, some (.obj [])⟩ ⟨true, 200, some (.obj [])⟩ ⟨true, 200, some (.obj [])⟩ =
      ([.request "POST" "/api/admin/onboarding/id1/status"
          (jsonStringify (.obj [("status", .str "approved"), ("notes", .str "n")])),
        .setHTML "tab_onboarding" onboardingShell,
        .request "GET" "/api/admin/onboarding?status=submitted&limit=50" none,
        .setHTML "ob_table" (onboardingTable (fun _ => "") []),
        .setHTML "ob_detail" loadingHTML,
        .request "GET" "/api/admin/onboarding/id1" none,
        .setHTML "ob_detail" (onboardingDetailHTML "id1" .undefV)],
       .ok ()) ∧
    vaultUpload (fun _ => "") true ⟨true, 200, some (.obj [])⟩ ⟨true, 200, some (.obj [])⟩ =
      ([.setHTML "v_msg" "",
        .request "POST" "/api/vault/ingest" none,
        .setHTML "v_msg" (vaultSuccessHTML (.obj [])),
        .request "GET" "/api/admin/vault/objects?source_key=all&limit=50" none,
        .setHTML "v_table" (vaultTable (fun _ => "") [])],
       .ok ()) ∧
    createOwner (fun _ => "") "n" "t" "j" "e" "a" "p"
        ⟨true, 200, some (.obj [])⟩ ⟨true, 200, some (.obj [])⟩ =
      ([.request "POST" "/api/admin/owners"
          (jsonStringify (createOwnerPayload "n" "t" "j" "e" "a" "p")),
        .setHTML "o_msg" "<div class=\"alert alert-success\">Created owner undefined</div>",
        .request "GET" "/api/admin/owners?limit=50" none,
        .setHTML "o_table" (ownersTable (fun _ => "") [])],
       .ok ()) ∧
    createAsset (fun _ => "") "" "t" "ty" "r" "d"
        ⟨true, 200, some (.obj [])⟩ ⟨true, 200, some (.obj [])⟩ =
      ([.request "POST" "/api/admin/assets"
          (jsonStringify (createAssetPayload "" "t" "ty" "r" "d")),
        .setHTML "a_msg" "<div class=\"alert alert-success\">Created asset undefined</div>",
        .request "GET" "/api/admin/assets?limit=50" none,
        .setHTML "a_table" (assetsTable (fun _ => "") [])],
       .ok ()) :=
  ⟨c4_refetch_after_mutation.1 (fun _ => "") "id1" "approved" "n" "submitted"
      _ _ _ rfl rfl rfl,
   c4_refetch_after_mutation.2.2.1 (fun _ => "") (.obj []) _ _ rfl rfl rfl,
   c4_refetch_after_mutation.2.2.2.1 (fun _ => "") "n" "t" "j" "e" "a" "p"
      _ _ rfl rfl,
   c4_refetch_after_mutation.2.2.2.2 (fun _ => "") "" "t" "ty" "r" "d"
      _ _ rfl rfl⟩

/-- Claim C5: the Approve action asks for confirmation first; declined, it
issues no request and changes no view (the trace is the dialog alone);
confirmed and successful, it shows `user_email` and `temp_password` from
the response verbatim in the alert, and only afterwards re-renders the
onboarding list and the detail view. -/
theorem c5_approve_flow :
    (∀ (fmt : JSValue → String) (id obStatus2 : String) (aR lR dR : Response),
      approveOnboarding fmt id false obStatus2 aR lR dR =
        ([.confirmBox "Approve this onboarding and create Owner + Assets + Owner login?"],
         .ok ())) ∧
    (∀ (fmt : JSValue → String) (id obStatus2 em pw : String) (aR lR dR : Response),
        aR.ok = true →
        jsGet (parseBodyCaught aR) "user_email" = .str em →
        jsGet (parseBodyCaught aR) "temp_password" = .str pw →
        lR.ok = true → dR.ok = true →
      approveOnboarding fmt id true obStatus2 aR lR dR =
        ([.confirmBox "Approve this onboarding and create Owner + Assets + Owner login?",
          .request "POST" ("/api/admin/onboarding/" ++ id ++ "/approve") none,
          .alertBox
            ("OWNER LOGIN CREATED\n\nEmail: " ++ em ++ "\nTemp Password: " ++ pw ++
              "\n\n(You should copy this now.)"),
          .setHTML "tab_onboarding" onboardingShell,
          .request "GET"
            ("/api/admin/onboarding?status=" ++ encodeURIComponent obStatus2 ++ "&limit=50")
            none,
          .setHTML "ob_table"
            (onboardingTable fmt (jsElems (jsOr (jsGet (parseBodyCaught lR) "items") (.arr [])))),
          .setHTML "ob_detail" loadingHTML,
          .request "GET" ("/api/admin/onboarding/" ++ id) none,
          .setHTML "ob_detail"
            (onboardingDetailHTML id (jsGet (parseBodyCaught dR) "submission"))],
         .ok ())) := by
  constructor
  · intro fmt id obStatus2 aR lR dR
    rfl
  · intro fmt id obStatus2 em pw aR lR dR ha hem hpw hl hd
    simp [approveOnboarding, api_ok _ _ _ _ ha, renderOnboarding_ok _ _ _ hl,
      openOnboarding_ok _ _ hd, opBind, emit, hem, hpw, jsToString]

/-- Witness for C5: a declined approval at concrete inputs, and a confirmed
one whose response carries concrete credentials. -/
theorem c5_approve_flow_witness :
    approveOnboarding (fun _ => "") "id1" false "submitted"
        ⟨true, 200, some (.obj [])⟩ ⟨true, 200, some (.obj [])⟩ ⟨true, 200, some (.obj [])⟩ =
      ([.confirmBox "Approve this onboarding and create Owner + Assets + Owner login?"],
       .ok ()) ∧
    approveOnboarding (fun _ => "") "id1" true "submitted"
        ⟨true, 200, some (.obj [("user_email", .str "o@x.com"), ("temp_password", .str "tp1")])⟩
        ⟨true, 200, some (.obj [])⟩ ⟨true, 200, some (.obj [])⟩ =
      ([.confirmBox "Approve this onboarding and create Owner + Assets + Owner login?",
        .request "POST" "/api/admin/onboarding/id1/approve" none,
        .alertBox
          "OWNER LOGIN CREATED\n\nEmail: o@x.com\nTemp Password: tp1\n\n(You should copy this now.)",
        .setHTML "tab_onboarding" onboardingShell,
        .request "GET" "/api/admin/onboarding?status=submitted&limit=50" none,
        .setHTML "ob_table" (onboardingTable (fun _ => "") []),
        .setHTML "ob_detail" loadingHTML,
        .request "GET" "/api/admin/onboarding/id1" none,
        .setHTML "ob_detail" (onboardingDetailHTML "id1" .undefV)],
       .ok ()) :=
  ⟨c5_approve_flow.1 (fun _ => "") "id1" "submitted" _ _ _,
   c5_approve_flow.2 (fun _ => "") "id1" "submitted" "o@x.com" "tp1"
      _ _ _ rfl rfl rfl rfl rfl⟩

theorem opBind_fst_prefix {α β : Type} (x : OpResult α) (f : α → OpResult β) :
    ∃ t, (opBind x f).1 = x.1 ++ t := by
  cases x with
  | mk tr r =>
    cases r with
    | error e => exact ⟨[], by simp [opBind]⟩
    | ok a =>
      cases hf : f a with
      | mk tr2 r2 => exact ⟨tr2, by simp [opBind, hf]⟩

theorem api_fst (m p : String) (b : Option String) (r : Response) :
    (api m p b r).1 = [.request m p b] := by
  cases h : r.ok
  · rw [api_err _ _ _ _ h]
  · rw [api_ok _ _ _ _ h]

theorem trace_emit_catch_emit (a b : Action) (k : Unit → OpResult Unit)
    (h : JSError → OpResult Unit) :
    ∃ rest, (opBind (emit a) fun _ => opCatch (opBind (emit b) k) h).1 =
      a :: b :: rest := by
  obtain ⟨t, ht⟩ := opCatch_fst (opBind (emit b) k) h
  refine ⟨(k ()).1 ++ t, ?_⟩
  rw [opBind_emit_eq]
  simp only
  rw [ht, opBind_emit_eq]
  simp

/-- Claim C6: submitting the vault ingest form with no file attached issues
no network request and shows the visible "Choose a file." error; with a
file attached, the very next action after clearing the message area is the
ingest POST. -/
theorem c6_ingest_requires_file :
    (∀ (fmt : JSValue → String) (resp listResp : Response),
      vaultUpload fmt false resp listResp =
        ([.setHTML "v_msg" "",
          .setHTML "v_msg" "<div class=\"alert alert-danger\">Choose a file.</div>"],
         .ok ()) ∧
      ∀ a ∈ (vaultUpload fmt false resp listResp).1, ∀ m p b, a ≠ .request m p b) ∧
    (∀ (fmt : JSValue → String) (resp listResp : Response), ∃ rest,
      (vaultUpload fmt true resp listResp).1 =
        .setHTML "v_msg" "" :: .request "POST" "/api/vault/ingest" none :: rest) := by
  constructor
  · intro fmt resp listResp
    refine ⟨rfl, ?_⟩
    intro a ha m p b
    have he : (vaultUpload fmt false resp listResp).1 =
        [.setHTML "v_msg" "",
         .setHTML "v_msg" "<div class=\"alert alert-danger\">Choose a file.</div>"] := rfl
    rw [he] at ha
    simp only [List.mem_cons, List.mem_singleton, List.not_mem_nil] at ha
    rcases ha with rfl | rfl | h0
    · simp
    · simp
    · exact absurd h0 (by simp)
  · intro fmt resp listResp
    simp only [vaultUpload, vaultUploadAttempt]
    simp only [if_true]
    exact trace_emit_catch_emit _ _ _ _

/-- Witness for C6 at concrete inputs: the file-less submission's exact
trace, the fact that its first action is not the ingest request, and the
with-file trace opening with the ingest request. -/
theorem c6_ingest_requires_file_witness :
    vaultUpload (fun _ => "") false ⟨true, 200, some (.obj [])⟩ ⟨true, 200, some (.obj [])⟩ =
      ([.setHTML "v_msg" "",
        .setHTML "v_msg" "<div class=\"alert alert-danger\">Choose a file.</div>"],
       .ok ()) ∧
    Action.setHTML "v_msg" "" ≠ .request "POST" "/api/vault/ingest" none ∧
    ∃ rest,
      (vaultUpload (fun _ => "") true ⟨true, 200, some (.obj [])⟩ ⟨true, 200, some (.obj [])⟩).1 =
        .setHTML "v_msg" "" :: .request "POST" "/api/vault/ingest" none :: rest :=
  ⟨(c6_ingest_requires_file.1 (fun _ => "") ⟨true, 200, some (.obj [])⟩
      ⟨true, 200, some (.obj [])⟩).1,
   (c6_ingest_requires_file.1 (fun _ => "") ⟨true, 200, some (.obj [])⟩
      ⟨true, 200, some (.obj [])⟩).2 (.setHTML "v_msg" "")
      (List.mem_cons_self _ _) "POST" "/api/vault/ingest" none,
   c6_ingest_requires_file.2 (fun _ => "") ⟨true, 200, some (.obj [])⟩
      ⟨true, 200, some (.obj [])⟩⟩

/-- Claim C7: `createAsset` submits trimmed text fields, and `owner_id` is
the explicit JSON `null` exactly when the trimmed owner field is empty
(never the empty string), and the trimmed string otherwise; the POST body
it issues is the serialization of that payload. -/
theorem c7_asset_payload (aOwner aTitle aType aReg aDesc : String) :
    jsGet (createAssetPayload aOwner aTitle aType aReg aDesc) "owner_id" =
      (if jsTrim aOwner = "" then .nullv else .str (jsTrim aOwner)) ∧
    jsGet (createAssetPayload aOwner aTitle aType aReg aDesc) "title" =
      .str (jsTrim aTitle) ∧
    jsGet (createAssetPayload aOwner aTitle aType aReg aDesc) "asset_type" =
      .str (jsTrim aType) ∧
    jsGet (createAssetPayload aOwner aTitle aType aReg aDesc) "reg_no" =
      .str (jsTrim aReg) ∧
    jsGet (createAssetPayload aOwner aTitle aType aReg aDesc) "description" =
      .str (jsTrim aDesc) ∧
    jsGet (createAssetPayload aOwner aTitle aType aReg aDesc) "owner_id" ≠ .str "" ∧
    (jsTrim aOwner = "" →
      jsonStringify (createAssetPayload aOwner aTitle aType aReg aDesc) =
        some ("\x7b" ++ String.intercalate ","
          ["\"owner_id\":null",
           "\"title\":\"" ++ jsonEscape (jsTrim aTitle) ++ "\"",
           "\"asset_type\":\"" ++ jsonEscape (jsTrim aType) ++ "\"",
           "\"reg_no\":\"" ++ jsonEscape (jsTrim aReg) ++ "\"",
           "\"description\":\"" ++ jsonEscape (jsTrim aDesc) ++ "\""] ++ "\x7d")) ∧
    (∀ (fmt : JSValue → String) (pR lR : Response), ∃ rest,
      (createAsset fmt aOwner aTitle aType aReg aDesc pR lR).1 =
        .request "POST" "/api/admin/assets"
          (jsonStringify (createAssetPayload aOwner aTitle aType aReg aDesc)) :: rest) := by
  refine ⟨?_, rfl, rfl, rfl, rfl, ?_, ?_, ?_⟩
  · by_cases h : jsTrim aOwner = "" <;>
      simp [createAssetPayload, jsGet, lookupField, jsOr, jsTruthy, h]
  · by_cases h : jsTrim aOwner = "" <;>
      simp [createAssetPayload, jsGet, lookupField, jsOr, jsTruthy, h]
  · intro h
    simp only [createAssetPayload, h, jsOr, jsTruthy, jsonStringify,
      jsonStringifyFields, bne_self_eq_false, Bool.false_eq_true, if_false]
    rfl
  · intro fmt pR lR
    obtain ⟨t1, h1⟩ := opBind_fst_prefix
      (api "POST" "/api/admin/assets"
        (jsonStringify (createAssetPayload aOwner aTitle aType aReg aDesc)) pR) _
    obtain ⟨t2, h2⟩ := opCatch_fst _ _
    refine ⟨t1 ++ t2, ?_⟩
    simp only [createAsset]
    rw [h2, h1, api_fst]
    simp

/-- Witness for C7: an all-whitespace owner field gives `owner_id = null`;
a nonempty one gives the trimmed string. -/
theorem c7_asset_payload_witness :
    jsGet (createAssetPayload "  " "t" "ty" "r" "d") "owner_id" = .nullv ∧
    jsGet (createAssetPayload " ow1 " "t" "ty" "r" "d") "owner_id" = .str "ow1" ∧
    jsonStringify (createAssetPayload "  " "t" "ty" "r" "d") =
      some "\x7b\"owner_id\":null,\"title\":\"t\",\"asset_type\":\"ty\",\"reg_no\":\"r\",\"description\":\"d\"\x7d" :=
  ⟨(c7_asset_payload "  " "t" "ty" "r" "d").1,
   (c7_asset_payload " ow1 " "t" "ty" "r" "d").1,
   (c7_asset_payload "  " "t" "ty" "r" "d").2.2.2.2.2.2.1 rfl⟩

/-- Claim C8: on startup, a failed identity call or a falsy/absent `email`
redirects to the login page with no tab activated (the trace is the
identity request and the navigation alone); otherwise the onboarding tab is
activated as the initial state. -/
theorem c8_session_guard :
    (∀ (fmt : JSValue → String) (env : TabEnv) (r : Response), r.ok = false →
      initPage fmt r env =
        ([.request "GET" "/api/auth/me" none, .redirect "/static/atlas-login.html"],
         .ok ())) ∧
    (∀ (fmt : JSValue → String) (env : TabEnv) (r : Response), r.ok = true →
        jsTruthy (jsGet (parseBodyCaught r) "email") = false →
      initPage fmt r env =
        ([.request "GET" "/api/auth/me" none, .redirect "/static/atlas-login.html"],
         .ok ())) ∧
    (∀ (fmt : JSValue → String) (env : TabEnv) (r : Response), r.ok = true →
        jsTruthy (jsGet (parseBodyCaught r) "email") = true →
      initPage fmt r env =
        (.request "GET" "/api/auth/me" none :: (showTab fmt "onboarding" env).1,
         (showTab fmt "onboarding" env).2)) := by
  refine ⟨?_, ?_, ?_⟩
  · intro fmt env r h
    simp [initPage, api_err _ _ _ _ h]
  · intro fmt env r h hmail
    simp [initPage, api_ok _ _ _ _ h, hmail]
  · intro fmt env r h hmail
    simp [initPage, api_ok _ _ _ _ h, hmail, opBind_emitAll_eq]

/-- Witness for C8: a failed identity call, an identity with no email, and
a good identity at concrete inputs. -/
theorem c8_session_guard_witness :
    initPage (fun _ => "") ⟨false, 500, none⟩
        ⟨"submitted", ⟨true, 200, none⟩, ⟨true, 200, none⟩, ⟨true, 200, none⟩, ⟨true, 200, none⟩⟩ =
      ([.request "GET" "/api/auth/me" none, .redirect "/static/atlas-login.html"], .ok ()) ∧
    initPage (fun _ => "") ⟨true, 200, some (.obj [])⟩
        ⟨"submitted", ⟨true, 200, none⟩, ⟨true, 200, none⟩, ⟨true, 200, none⟩, ⟨true, 200, none⟩⟩ =
      ([.request "GET" "/api/auth/me" none, .redirect "/static/atlas-login.html"], .ok ()) ∧
    initPage (fun _ => "") ⟨true, 200, some (.obj [("email", .str "a@b.c")])⟩
        ⟨"submitted", ⟨true, 200, none⟩, ⟨true, 200, none⟩, ⟨true, 200, none⟩, ⟨true, 200, none⟩⟩ =
      (.request "GET" "/api/auth/me" none ::
        (showTab (fun _ => "") "onboarding"
          ⟨"submitted", ⟨true, 200, none⟩, ⟨true, 200, none⟩, ⟨true, 200, none⟩, ⟨true, 200, none⟩⟩).1,
       (showTab (fun _ => "") "onboarding"
          ⟨"submitted", ⟨true, 200, none⟩, ⟨true, 200, none⟩, ⟨true, 200, none⟩, ⟨true, 200, none⟩⟩).2) :=
  ⟨c8_session_guard.1 (fun _ => "") _ ⟨false, 500, none⟩ rfl,
   c8_session_guard.2.1 (fun _ => "") _ ⟨true, 200, some (.obj [])⟩ rfl rfl,
   c8_session_guard.2.2 (fun _ => "") _ ⟨true, 200, some (.obj [("email", .str "a@b.c")])⟩ rfl rfl⟩

/-- Claim C9: `showTab` with each of the four tab names sets exactly the
selected container visible and the other three hidden, then invokes exactly
that tab's render routine; since `showTab` is a function of the name alone
(given the environment), re-invoking it with the current name re-runs the
same full render routine. -/
theorem c9_show_tab (fmt : JSValue → String) (env : TabEnv) :
    displayActions "onboarding" =
      [.setDisplay "tab_onboarding" "block", .setDisplay "tab_vault" "none",
       .setDisplay "tab_owners" "none", .setDisplay "tab_assets" "none"] ∧
    displayActions "vault" =
      [.setDisplay "tab_onboarding" "none", .setDisplay "tab_vault" "block",
       .setDisplay "tab_owners" "none", .setDisplay "tab_assets" "none"] ∧
    displayActions "owners" =
      [.setDisplay "tab_onboarding" "none", .setDisplay "tab_vault" "none",
       .setDisplay "tab_owners" "block", .setDisplay "tab_assets" "none"] ∧
    displayActions "assets" =
      [.setDisplay "tab_onboarding" "none", .setDisplay "tab_vault" "none",
       .setDisplay "tab_owners" "none", .setDisplay "tab_assets" "block"] ∧
    showTab fmt "onboarding" env =
      (displayActions "onboarding" ++ (renderOnboarding fmt env.obStatus env.onboardingResp).1,
       (renderOnboarding fmt env.obStatus env.onboardingResp).2) ∧
    showTab fmt "vault" env =
      (displayActions "vault" ++ (renderVault fmt env.vaultResp).1,
       (renderVault fmt env.vaultResp).2) ∧
    showTab fmt "owners" env =
      (displayActions "owners" ++ (renderOwners fmt env.ownersResp).1,
       (renderOwners fmt env.ownersResp).2) ∧
    showTab fmt "assets" env =
      (displayActions "assets" ++ (renderAssets fmt env.assetsResp).1,
       (renderAssets fmt env.assetsResp).2) := by
  refine ⟨rfl, rfl, rfl, rfl, ?_, ?_, ?_, ?_⟩ <;>
    simp [showTab, opBind_emitAll_eq]

end Atlas
